import Mathlib

/-!
Verification of the nixpacks provider core (npm, deno, pixi providers).

The providers under `src/providers/` are embedded as pure Lean functions.
The external source accessor (`App`) and configuration accessor
(`Environment`) are modelled as records of their read-only query answers;
fallible reads are `Except String` values. The phase / build-plan data
model (`Pkg`, `Phase`, `StartPhase`, `BuildPlan`) is repository code that
is not part of the provider sources and is modelled from the spec.
-/

set_option maxRecDepth 4000

/-- A nix package reference; equality is by name (`Pkg::new`). -/
structure Pkg where
  name : String
deriving DecidableEq, Repr

def Pkg.new (name : String) : Pkg := ⟨name⟩

/-- Modelled from the spec: a named, orderable unit of build work with
command list, dependency edges by phase name, an optional inclusion
filter and an optional package-archive override (spec section 3, Phase). -/
structure Phase where
  name : String
  cmds : Option (List String) := none
  depends_on : Option (List String) := none
  nix_pkgs : Option (List Pkg) := none
  only_include_files : Option (List String) := none
  nixpkgs_archive : Option String := none
deriving DecidableEq, Repr

def Phase.new (name : String) : Phase := { name := name }

/-- Modelled from the spec: the conventional "setup" phase installing the
required packages (spec section 4.5). -/
def Phase.setup (pkgs : Option (List Pkg)) : Phase :=
  { name := "setup", nix_pkgs := pkgs }

/-- Modelled from the spec: the conventional "install" phase, depending on
setup (spec section 4.5). -/
def Phase.install (cmd : Option String) : Phase :=
  { name := "install", depends_on := some ["setup"],
    cmds := cmd.map (fun c => [c]) }

/-- Modelled from the spec: the conventional "build" phase, depending on
install (spec section 4.5). -/
def Phase.build (cmd : Option String) : Phase :=
  { name := "build", depends_on := some ["install"],
    cmds := cmd.map (fun c => [c]) }

def Phase.add_cmd (p : Phase) (cmd : String) : Phase :=
  { p with cmds := some ((p.cmds.getD []) ++ [cmd]) }

def Phase.depends_on_phase (p : Phase) (name : String) : Phase :=
  { p with depends_on := some ((p.depends_on.getD []) ++ [name]) }

/-- Modelled from the spec: "optionally override the phase's
package-archive source" (spec section 4.5). -/
def Phase.pin (p : Phase) (archive : Option String) : Phase :=
  { p with nixpkgs_archive := archive }

/-- Modelled from the spec: a singleton value holding exactly one command
string (spec section 3, StartPhase). -/
structure StartPhase where
  cmd : String
deriving DecidableEq, Repr

def StartPhase.new (cmd : String) : StartPhase := ⟨cmd⟩

/-- Modelled from the spec: a mapping from phase name to Phase plus an
optional StartPhase (spec section 3, BuildPlan). -/
structure BuildPlan where
  phases : List (String × Phase) := []
  start_phase : Option StartPhase := none
deriving DecidableEq, Repr

def BuildPlan.default : BuildPlan := {}

/-- Adds a phase under its name (map insert: an existing entry with the
same name is replaced). -/
def BuildPlan.add_phase (plan : BuildPlan) (p : Phase) : BuildPlan :=
  { plan with
    phases := (plan.phases.filter (fun q => q.1 ≠ p.name)) ++ [(p.name, p)] }

/-- Sets the start phase; last write wins (spec section 3). -/
def BuildPlan.set_start_phase (plan : BuildPlan) (s : StartPhase) : BuildPlan :=
  { plan with start_phase := some s }

/-- `package.json` as deserialized by the npm provider
(`src/providers/npm.rs`, struct PackageJson); string maps are modelled as
association lists. -/
structure PackageJson where
  name : String
  scripts : Option (List (String × String))
  engines : Option (List (String × String))
  main : Option String
deriving DecidableEq, Repr

/-- A toml value whose content the pixi provider never inspects
(`toml::Value` in `src/providers/pixi.rs`; only `is_some` is used). -/
inductive TomlValue where
  | str : String → TomlValue
  | int : Int → TomlValue
  | boolean : Bool → TomlValue
deriving DecidableEq, Repr

/-- `pixi.toml` tasks table (`src/providers/pixi.rs`, struct PixiTasks). -/
structure PixiTasks where
  build : Option TomlValue
  start : Option TomlValue
deriving DecidableEq, Repr

/-- `pixi.toml` (`src/providers/pixi.rs`, struct PixiToml). -/
structure PixiToml where
  tasks : PixiTasks
deriving DecidableEq, Repr

/-- `deno.json` tasks table (`src/providers/deno.rs`, struct DenoTasks). -/
structure DenoTasks where
  start : Option String
deriving DecidableEq, Repr

/-- `deno.json` (`src/providers/deno.rs`, struct DenoJson). -/
structure DenoJson where
  tasks : Option DenoTasks
deriving DecidableEq, Repr

/-- Modelled from the spec: the external read-only source accessor
(spec sections 2 and 6). Each field records the answer the accessor
gives to the corresponding query used by the three providers:
`files` backs `includes_file`/`has_match`, the `…_json`/`…_toml`
fields are the results of `read_json`/`read_toml` per manifest file,
`index_matches` is the result of `find_files` on the glob
`**/index.{ts,tsx,js,jsx}`, `strip_source_path` relativizes a path
(paths are modelled as slash strings, so `to_slash` is the identity),
and `find_match_deno_land` is the result of `find_match` with the
deno.land import regex over `**/*.{ts,tsx,js,jsx}`. -/
structure App where
  files : List String
  package_json : Except String PackageJson := .error "package.json not read"
  pixi_toml : Except String PixiToml := .error "pixi.toml not read"
  deno_config : String → Except String DenoJson := fun _ => .error "not read"
  index_matches : List String := []
  strip_source_path : String → Except String String := fun p => .ok p
  find_match_deno_land : Except String Bool := .ok false

def App.includes_file (app : App) (name : String) : Bool :=
  app.files.contains name

/-- `has_match` with a literal (non-wildcard) pattern, as the pixi
provider uses it. -/
def App.has_match (app : App) (pattern : String) : Bool :=
  app.files.contains pattern

/-- Modelled from the spec: the external configuration accessor —
"boolean flag lookup by namespaced key" (spec section 6); a value is
truthy when it is "1" or "true". -/
structure Environment where
  vars : List (String × String)

def Environment.is_config_variable_truthy (env : Environment) (name : String) : Bool :=
  match env.vars.lookup ("NIXPACKS_" ++ name) with
  | some v => v == "1" || v == "true"
  | none => false

/-! ## Npm provider (`src/providers/npm.rs`) -/

def AVAILABLE_NODE_VERSIONS : List Nat := [10, 12, 14, 16, 17]

def DEFAULT_NODE_PKG_NAME : String := "pkgs.nodejs"

/-- The longest leading run of ASCII digits of a character list, together
with the remainder (the behaviour of a greedy anchored `\d+`). -/
def takeDigits : List Char → List Char × List Char
  | [] => ([], [])
  | c :: cs =>
    if c.isDigit then (c :: (takeDigits cs).1, (takeDigits cs).2)
    else ([], c :: cs)

/-- Drops one optional occurrence of `c` at the head (the behaviour of an
anchored `c?`). -/
def dropOpt (c : Char) : List Char → List Char
  | [] => []
  | x :: xs => if x = c then xs else x :: xs

/-- The regex `^(\d+)\.?x?$` of `get_nix_node_pkg`: returns capture group 1
(the digit run) when the whole string matches. -/
def matchMajorX (s : String) : Option String :=
  let ds := (takeDigits s.toList).1
  let rest := (takeDigits s.toList).2
  if ds.isEmpty then none
  else if (dropOpt 'x' (dropOpt '.' rest)).isEmpty then some (String.mk ds)
  else none

/-- The regex `^>=(\d+)` of `get_nix_node_pkg`: returns capture group 1
when the string starts with `>=` followed by at least one digit. -/
def matchGte (s : String) : Option String :=
  match s.toList with
  | c1 :: c2 :: rest =>
    if c1 = '>' ∧ c2 = '=' then
      if (takeDigits rest).1.isEmpty then none
      else some (String.mk (takeDigits rest).1)
    else none
  | _ => none

/-- Numeric value of a digit string. -/
def digitsToNat (ds : List Char) : Nat :=
  ds.foldl (fun a c => a * 10 + (c.toNat - 48)) 0

/-- Rust's `str::parse::<u32>` on a non-empty ASCII digit string: the
value when it fits in 32 bits, failure (None) on overflow. -/
def parseU32 (s : String) : Option Nat :=
  let n := digitsToNat s.toList
  if n < 4294967296 then some n else none

/-- `version_number_to_pkg` (`src/providers/npm.rs` lines 127-133). -/
def version_number_to_pkg (version : Nat) : Except String (Option String) :=
  if version ∈ AVAILABLE_NODE_VERSIONS then
    .ok (some ("nodejs-" ++ toString version ++ "_x"))
  else
    .error ("Node version " ++ toString version ++ " is not available")

/-- `parse_regex_into_pkg` (`src/providers/npm.rs` lines 135-145): the
regex is passed as the matcher function; a failed integer parse is
discarded (`Err(_e) => {}` falls through to `Ok(None)`). -/
def parse_regex_into_pkg (matchRegex : String → Option String)
    (node_version : String) : Except String (Option String) :=
  match matchRegex node_version with
  | some digits =>
    match parseU32 digits with
    | some version => version_number_to_pkg version
    | none => .ok none
  | none => .ok none

/-- The `engines.node` lookup of `get_nix_node_pkg`
(`package_json.engines.as_ref().and_then(|engines| engines.get("node"))`). -/
def engines_node (package_json : PackageJson) : Option String :=
  package_json.engines.bind (fun engines => engines.lookup "node")

/-- Body of `get_nix_node_pkg` after the engines.node constraint has been
found (`src/providers/npm.rs` lines 98-115): wildcard, then the
`major[.x]` regex, then the `>=N` regex, then the default. -/
def resolve_node_version (node_version : String) : Except String Pkg :=
  if node_version = "*" then .ok (Pkg.new DEFAULT_NODE_PKG_NAME)
  else
    match parse_regex_into_pkg matchMajorX node_version with
    | .error e => .error e
    | .ok (some node_pkg) => .ok (Pkg.new node_pkg)
    | .ok none =>
      match parse_regex_into_pkg matchGte node_version with
      | .error e => .error e
      | .ok (some node_pkg) => .ok (Pkg.new node_pkg)
      | .ok none => .ok (Pkg.new DEFAULT_NODE_PKG_NAME)

/-- `NpmProvider::get_nix_node_pkg` (`src/providers/npm.rs` lines 87-116). -/
def NpmProvider.get_nix_node_pkg (package_json : PackageJson) : Except String Pkg :=
  match engines_node package_json with
  | none => .ok (Pkg.new DEFAULT_NODE_PKG_NAME)
  | some node_version => resolve_node_version node_version

/-- `NpmProvider::detect` (`src/providers/npm.rs` lines 23-25). -/
def NpmProvider.detect (app : App) (_env : Environment) : Except String Bool :=
  .ok (app.includes_file "package.json")

/-- `NpmProvider::suggested_build_cmd` (`src/providers/npm.rs` lines 38-47). -/
def NpmProvider.suggested_build_cmd (app : App) (_env : Environment) :
    Except String (Option String) :=
  match app.package_json with
  | .error e => .error e
  | .ok package_json =>
    match package_json.scripts with
    | some scripts =>
      if (scripts.lookup "build").isSome then .ok (some "npm run build")
      else .ok none
    | none => .ok none

/-- `NpmProvider::suggested_start_command` (`src/providers/npm.rs` lines
49-67); the early returns of the source are rendered as nested matches. -/
def NpmProvider.suggested_start_command (app : App) (_env : Environment) :
    Except String (Option String) :=
  match app.package_json with
  | .error e => .error e
  | .ok package_json =>
    match
      (match package_json.scripts with
       | some scripts =>
         if (scripts.lookup "start").isSome then some "npm run start" else none
       | none => none) with
    | some cmd => .ok (some cmd)
    | none =>
      match
        (match package_json.main with
         | some main =>
           if app.includes_file main then some ("node " ++ main) else none
         | none => none) with
      | some cmd => .ok (some cmd)
      | none =>
        if app.includes_file "index.js" then .ok (some "node index.js")
        else .ok none

/-! ## Deno provider (`src/providers/deno.rs`) -/

/-- Modelled from the spec: the designated "latest" Deno archive constant
(`NIXPACKS_ARCHIVE_LATEST_DENO`, defined outside the provider sources);
its concrete value is opaque to the providers. -/
def NIXPACKS_ARCHIVE_LATEST_DENO : String := "nixpacks-archive-latest-deno"

/-- `DenoProvider::detect` (`src/providers/deno.rs` lines 35-43): the
config-file existence checks short-circuit before the content regex
scan; the scan's result (or read error) is returned otherwise. -/
def DenoProvider.detect (app : App) (_env : Environment) : Except String Bool :=
  if app.includes_file "deno.json" || app.includes_file "deno.jsonc" then
    .ok true
  else
    app.find_match_deno_land

/-- The `read_json("deno.json").or_else(|_| read_json("deno.jsonc"))`
fallback of `get_start_cmd` (`src/providers/deno.rs` lines 86-88). -/
def DenoProvider.read_deno_config (app : App) : Except String DenoJson :=
  match app.deno_config "deno.json" with
  | .ok v => .ok v
  | .error _ => app.deno_config "deno.jsonc"

/-- The nested `if let` extraction of `tasks.start`
(`src/providers/deno.rs` lines 90-94). -/
def DenoProvider.start_task (deno_json : DenoJson) : Option String :=
  match deno_json.tasks with
  | some tasks => tasks.start
  | none => none

/-- `DenoProvider::get_start_file` (`src/providers/deno.rs` lines 110-119):
first match of `**/index.{ts,tsx,js,jsx}`, relativized. -/
def DenoProvider.get_start_file (app : App) : Except String (Option String) :=
  match app.index_matches.head? with
  | none => .ok none
  | some path_to_index =>
    match app.strip_source_path path_to_index with
    | .error e => .error e
    | .ok relative_path_to_index => .ok (some relative_path_to_index)

/-- `DenoProvider::get_start_cmd` (`src/providers/deno.rs` lines 83-107):
a start task from an existing config file wins; otherwise the first
index-file glob match yields the default invocation; paths are slash
strings so `to_slash` is the identity. -/
def DenoProvider.get_start_cmd (app : App) : Except String (Option String) :=
  match
    (if app.includes_file "deno.json" || app.includes_file "deno.jsonc" then
      match DenoProvider.read_deno_config app with
      | .error e => Except.error e
      | .ok deno_json => Except.ok (DenoProvider.start_task deno_json)
    else Except.ok none) with
  | .error e => .error e
  | .ok (some start) => .ok (some start)
  | .ok none =>
    match DenoProvider.get_start_file app with
    | .error e => .error e
    | .ok (some start_file) => .ok (some ("deno run --allow-all " ++ start_file))
    | .ok none => .ok none

/-- `DenoProvider::get_build_cmd` (`src/providers/deno.rs` lines 70-81). -/
def DenoProvider.get_build_cmd (app : App) : Except String (Option String) :=
  match DenoProvider.get_start_file app with
  | .error e => .error e
  | .ok (some start_file) => .ok (some ("deno cache " ++ start_file))
  | .ok none => .ok none

/-- `DenoProvider::get_build_plan` (`src/providers/deno.rs` lines 45-66). -/
def DenoProvider.get_build_plan (app : App) (env : Environment) :
    Except String (Option BuildPlan) :=
  let setup0 := Phase.setup (some [Pkg.new "deno"])
  let setup :=
    if env.is_config_variable_truthy "USE_DENO_2" then
      setup0.pin (some NIXPACKS_ARCHIVE_LATEST_DENO)
    else setup0
  let plan := BuildPlan.default.add_phase setup
  match DenoProvider.get_build_cmd app with
  | .error e => .error e
  | .ok obuild =>
    let plan :=
      match obuild with
      | some build_cmd =>
        plan.add_phase ((Phase.build (some build_cmd)).depends_on_phase "setup")
      | none => plan
    match DenoProvider.get_start_cmd app with
    | .error e => .error e
    | .ok ostart =>
      let plan :=
        match ostart with
        | some start_cmd => plan.set_start_phase (StartPhase.new start_cmd)
        | none => plan
      .ok (some plan)

/-! ## Pixi provider (`src/providers/pixi.rs`) -/

/-- `PixiProvider::detect` (`src/providers/pixi.rs` lines 30-36). -/
def PixiProvider.detect (app : App) (_env : Environment) : Except String Bool :=
  .ok (app.has_match "pixi.toml")

/-- `PixiProvider::get_build_plan` (`src/providers/pixi.rs` lines 38-68). -/
def PixiProvider.get_build_plan (app : App) (_env : Environment) :
    Except String (Option BuildPlan) :=
  match app.pixi_toml with
  | .error e => .error e
  | .ok config =>
    let plan := BuildPlan.default
    let setup := { Phase.new "setup" with only_include_files := some [] }
    let setup := setup.add_cmd "curl -fsSL https://pixi.sh/install.sh | bash"
    let plan := plan.add_phase setup
    let install := Phase.install (some "~/.pixi/bin/pixi install")
    let install :=
      { install with only_include_files := some ["pixi.toml", "pixi.lock"] }
    let plan := plan.add_phase install
    let plan :=
      if config.tasks.build.isSome then
        plan.add_phase (Phase.build (some "~/.pixi/bin/pixi run build"))
      else plan
    if config.tasks.start.isSome then
      .ok (some (plan.set_start_phase (StartPhase.new "~/.pixi/bin/pixi run start")))
    else
      .error "No start task provided; please add one to your pixi.toml."

/-! ## Helper lemmas -/

theorem get_nix_node_pkg_engines (pj : PackageJson) (nv : String)
    (he : engines_node pj = some nv) :
    NpmProvider.get_nix_node_pkg pj = resolve_node_version nv := by
  unfold NpmProvider.get_nix_node_pkg
  rw [he]

theorem takeDigits_head (l : List Char) (h : (takeDigits l).1 ≠ []) :
    ∃ c cs, l = c :: cs ∧ c.isDigit = true := by
  cases l with
  | nil => exact absurd rfl h
  | cons c cs =>
    by_cases hc : c.isDigit
    · exact ⟨c, cs, rfl, hc⟩
    · exfalso
      apply h
      simp only [takeDigits, if_neg hc]

theorem matchMajorX_head (s d : String) (h : matchMajorX s = some d) :
    ∃ c cs, s.toList = c :: cs ∧ c.isDigit = true := by
  refine takeDigits_head s.toList ?_
  intro hemp
  unfold matchMajorX at h
  rw [hemp] at h
  simp at h

theorem matchGte_none_of_major (s d : String) (h : matchMajorX s = some d) :
    matchGte s = none := by
  obtain ⟨c, cs, hl, hd⟩ := matchMajorX_head s d h
  unfold matchGte
  rw [hl]
  cases cs with
  | nil => rfl
  | cons c2 rest =>
    have hne : ¬ (c = '>' ∧ c2 = '=') := by
      rintro ⟨rfl, -⟩
      exact absurd hd (by decide)
    exact if_neg hne

theorem star_ne_of_major (s d : String) (h : matchMajorX s = some d) :
    ¬ s = "*" := by
  intro hs
  subst hs
  rw [show matchMajorX "*" = none from rfl] at h
  exact Option.noConfusion h

theorem star_ne_of_gte (s d : String) (h : matchGte s = some d) :
    ¬ s = "*" := by
  intro hs
  subst hs
  rw [show matchGte "*" = none from rfl] at h
  exact Option.noConfusion h

/-! ## C1 -/

/-- C1: whenever the engines.node constraint matches one of the two
anchored version patterns (first-match-wins: `major[.x]`, else `>=N`) and
the extracted integer parses but is not in the allow-list of supported
majors, `get_nix_node_pkg` returns the "Node version … is not available"
error naming that integer — it never falls back to the default package. -/
theorem c1_unsupported_node_version_errors
    (pj : PackageJson) (nv d : String) (v : Nat)
    (he : engines_node pj = some nv)
    (hm : matchMajorX nv = some d ∨ (matchMajorX nv = none ∧ matchGte nv = some d))
    (hp : parseU32 d = some v)
    (hv : v ∉ AVAILABLE_NODE_VERSIONS) :
    NpmProvider.get_nix_node_pkg pj =
      .error ("Node version " ++ toString v ++ " is not available") := by
  have hstar : ¬ nv = "*" := by
    rcases hm with h1 | ⟨_, h2⟩
    · exact star_ne_of_major nv d h1
    · exact star_ne_of_gte nv d h2
  rw [get_nix_node_pkg_engines pj nv he]
  unfold resolve_node_version
  rw [if_neg hstar]
  rcases hm with h1 | ⟨h1, h2⟩
  · simp only [parse_regex_into_pkg, h1, hp, version_number_to_pkg, if_neg hv]
  · simp only [parse_regex_into_pkg, h1, h2, hp, version_number_to_pkg, if_neg hv]

def c1Pj : PackageJson :=
  { name := "", scripts := none, engines := some [("node", "15")], main := none }

/-- C1 witness: the constraint "15" yields the unsupported-version error. -/
theorem c1_witness :
    NpmProvider.get_nix_node_pkg c1Pj = .error "Node version 15 is not available" :=
  c1_unsupported_node_version_errors c1Pj "15" "15" 15 rfl (Or.inl rfl) rfl (by decide)

/-! ## C2 -/

/-- C2: `get_nix_node_pkg` is a first-match-wins chain: no engines.node
constraint or "*" gives the default `pkgs.nodejs`; "14" gives
`nodejs-14_x`; "12.x" gives `nodejs-12_x`; ">=14.10.3 <16" gives
`nodejs-14_x`; a constraint matching neither anchored pattern gives the
default. -/
theorem c2_resolution_chain :
    (∀ pj : PackageJson, engines_node pj = none →
       NpmProvider.get_nix_node_pkg pj = .ok (Pkg.new "pkgs.nodejs")) ∧
    (∀ pj : PackageJson, engines_node pj = some "*" →
       NpmProvider.get_nix_node_pkg pj = .ok (Pkg.new "pkgs.nodejs")) ∧
    (∀ pj : PackageJson, engines_node pj = some "14" →
       NpmProvider.get_nix_node_pkg pj = .ok (Pkg.new "nodejs-14_x")) ∧
    (∀ pj : PackageJson, engines_node pj = some "12.x" →
       NpmProvider.get_nix_node_pkg pj = .ok (Pkg.new "nodejs-12_x")) ∧
    (∀ pj : PackageJson, engines_node pj = some ">=14.10.3 <16" →
       NpmProvider.get_nix_node_pkg pj = .ok (Pkg.new "nodejs-14_x")) ∧
    (∀ (pj : PackageJson) (nv : String), engines_node pj = some nv →
       matchMajorX nv = none → matchGte nv = none →
       NpmProvider.get_nix_node_pkg pj = .ok (Pkg.new "pkgs.nodejs")) := by
  refine ⟨?_, ?_, ?_, ?_, ?_, ?_⟩
  · intro pj he
    unfold NpmProvider.get_nix_node_pkg
    rw [he]
    rfl
  · intro pj he
    rw [get_nix_node_pkg_engines pj _ he]
    rfl
  · intro pj he
    rw [get_nix_node_pkg_engines pj _ he]
    rfl
  · intro pj he
    rw [get_nix_node_pkg_engines pj _ he]
    rfl
  · intro pj he
    rw [get_nix_node_pkg_engines pj _ he]
    rfl
  · intro pj nv he h1 h2
    rw [get_nix_node_pkg_engines pj nv he]
    by_cases hs : nv = "*"
    · subst hs
      rfl
    · unfold resolve_node_version
      rw [if_neg hs]
      simp only [parse_regex_into_pkg, h1, h2]
      rfl

def c2Pj14 : PackageJson :=
  { name := "", scripts := none, engines := some [("node", "14")], main := none }

def c2PjOther : PackageJson :=
  { name := "", scripts := none, engines := some [("node", "latest")], main := none }

/-- C2 witness: the "14" strategy and the no-strategy fallback both have
satisfiable hypotheses. -/
theorem c2_witness :
    NpmProvider.get_nix_node_pkg c2Pj14 = .ok (Pkg.new "nodejs-14_x") ∧
    NpmProvider.get_nix_node_pkg c2PjOther = .ok (Pkg.new "pkgs.nodejs") :=
  ⟨c2_resolution_chain.2.2.1 c2Pj14 rfl,
   c2_resolution_chain.2.2.2.2.2 c2PjOther "latest" rfl rfl rfl⟩

/-! ## C9 -/

/-- C9: when the engines.node constraint matches the `major[.x]` pattern
but its digit run overflows a 32-bit unsigned parse, `get_nix_node_pkg`
silently returns the default package with no error (the failed parse is
discarded and the remaining strategy does not match). -/
theorem c9_overflow_silent_default
    (pj : PackageJson) (nv d : String)
    (he : engines_node pj = some nv)
    (hm : matchMajorX nv = some d)
    (hp : parseU32 d = none) :
    NpmProvider.get_nix_node_pkg pj = .ok (Pkg.new DEFAULT_NODE_PKG_NAME) := by
  have hgte : matchGte nv = none := matchGte_none_of_major nv d hm
  rw [get_nix_node_pkg_engines pj nv he]
  unfold resolve_node_version
  rw [if_neg (star_ne_of_major nv d hm)]
  simp only [parse_regex_into_pkg, hm, hp, hgte]

def c9Pj : PackageJson :=
  { name := "", scripts := none, engines := some [("node", "99999999999")], main := none }

/-- C9 witness: the constraint "99999999999" silently resolves to the
default package. -/
theorem c9_witness :
    NpmProvider.get_nix_node_pkg c9Pj = .ok (Pkg.new "pkgs.nodejs") :=
  c9_overflow_silent_default c9Pj "99999999999" "99999999999" rfl rfl rfl

/-! ## C4 -/

/-- Whether `package.json` declares the given script. -/
def has_script (pj : PackageJson) (script : String) : Bool :=
  match pj.scripts with
  | some scripts => (scripts.lookup script).isSome
  | none => false

/-- C4: with a parseable package.json, `suggested_build_cmd` is
"npm run build" exactly when a "build" script is declared, and
`suggested_start_command` follows the fixed first-success-wins chain:
"npm run start" if a "start" script is declared, else "node <main>" if
`main` is declared and that file exists, else "node index.js" if
index.js exists, else none. -/
theorem c4_suggested_commands
    (app : App) (env : Environment) (pj : PackageJson)
    (h : app.package_json = .ok pj) :
    NpmProvider.suggested_build_cmd app env =
      .ok (if has_script pj "build" then some "npm run build" else none) ∧
    NpmProvider.suggested_start_command app env =
      .ok (if has_script pj "start" then some "npm run start"
           else
             match pj.main with
             | some main =>
               if app.includes_file main then some ("node " ++ main)
               else if app.includes_file "index.js" then some "node index.js"
               else none
             | none =>
               if app.includes_file "index.js" then some "node index.js"
               else none) := by
  obtain ⟨nm, sc, en, mn⟩ := pj
  constructor
  · simp only [NpmProvider.suggested_build_cmd, has_script, h]
    cases sc with
    | none => rfl
    | some scripts =>
      by_cases hb : (scripts.lookup "build").isSome
      · simp [hb]
      · simp [hb]
  · simp only [NpmProvider.suggested_start_command, has_script, h]
    cases sc with
    | some scripts =>
      by_cases hs : (scripts.lookup "start").isSome
      · simp [hs]
      · simp only [hs, if_false, Bool.false_eq_true]
        cases mn with
        | some main =>
          by_cases hmf : app.includes_file main
          · simp [hmf]
          · simp only [hmf, if_false, Bool.false_eq_true]
            by_cases hi : app.includes_file "index.js"
            · simp [hi]
            · simp [hi]
        | none =>
          by_cases hi : app.includes_file "index.js"
          · simp [hi]
          · simp [hi]
    | none =>
      cases mn with
      | some main =>
        by_cases hmf : app.includes_file main
        · simp [hmf]
        · simp only [hmf, if_false, Bool.false_eq_true]
          by_cases hi : app.includes_file "index.js"
          · simp [hi]
          · simp [hi]
      | none =>
        by_cases hi : app.includes_file "index.js"
        · simp [hi]
        · simp [hi]

def c4Pj : PackageJson :=
  { name := "app", scripts := some [("build", "tsc"), ("start", "node dist/app.js")],
    engines := none, main := none }

def c4App : App := { files := ["package.json"], package_json := .ok c4Pj }

/-- C4 witness: declared build and start scripts yield "npm run build" and
"npm run start". -/
theorem c4_witness :
    NpmProvider.suggested_build_cmd c4App ⟨[]⟩ = .ok (some "npm run build") ∧
    NpmProvider.suggested_start_command c4App ⟨[]⟩ = .ok (some "npm run start") :=
  ⟨(c4_suggested_commands c4App ⟨[]⟩ c4Pj rfl).1,
   (c4_suggested_commands c4App ⟨[]⟩ c4Pj rfl).2⟩

/-! ## C3 -/

/-- The setup and install phases the pixi provider always adds. -/
def pixiBasePlan : BuildPlan :=
  ((BuildPlan.default.add_phase
    (({ Phase.new "setup" with only_include_files := some [] }).add_cmd
      "curl -fsSL https://pixi.sh/install.sh | bash")).add_phase
    { Phase.install (some "~/.pixi/bin/pixi install") with
      only_include_files := some ["pixi.toml", "pixi.lock"] })

def pixiPlanNoBuild : BuildPlan :=
  pixiBasePlan.set_start_phase (StartPhase.new "~/.pixi/bin/pixi run start")

def pixiPlanWithBuild : BuildPlan :=
  (pixiBasePlan.add_phase
    (Phase.build (some "~/.pixi/bin/pixi run build"))).set_start_phase
    (StartPhase.new "~/.pixi/bin/pixi run start")

/-- C3: with a parseable pixi.toml, the returned plan contains a "build"
phase exactly when the tasks.build key exists (whatever its value), and
a missing tasks.start key is a hard error regardless of tasks.build. -/
theorem c3_pixi_build_gated_start_required
    (app : App) (env : Environment) (config : PixiToml)
    (h : app.pixi_toml = .ok config) :
    (config.tasks.start.isSome = true →
       ∃ plan, PixiProvider.get_build_plan app env = .ok (some plan) ∧
         (plan.phases.lookup "build").isSome = config.tasks.build.isSome) ∧
    (config.tasks.start.isSome = false →
       PixiProvider.get_build_plan app env =
         .error "No start task provided; please add one to your pixi.toml.") := by
  obtain ⟨⟨b, st⟩⟩ := config
  constructor
  · intro hs
    cases st with
    | none => exact absurd hs (by simp)
    | some sv =>
      cases b with
      | none =>
        refine ⟨pixiPlanNoBuild, ?_, rfl⟩
        simp only [PixiProvider.get_build_plan, h]
        rfl
      | some bv =>
        refine ⟨pixiPlanWithBuild, ?_, rfl⟩
        simp only [PixiProvider.get_build_plan, h]
        rfl
  · intro hs
    cases st with
    | some sv => exact absurd hs (by simp)
    | none =>
      simp only [PixiProvider.get_build_plan, h]
      rfl

def c3AppNoStart : App :=
  { files := ["pixi.toml"],
    pixi_toml := .ok { tasks := { build := some (TomlValue.str "make"), start := none } } }

/-- C3 witness: a pixi.toml with a build task but no start task is a hard
error. -/
theorem c3_witness :
    PixiProvider.get_build_plan c3AppNoStart ⟨[]⟩ =
      .error "No start task provided; please add one to your pixi.toml." :=
  (c3_pixi_build_gated_start_required c3AppNoStart ⟨[]⟩ _ rfl).2 rfl

/-! ## C5 -/

/-- C5: `get_start_cmd` uses a start task declared in an existing
deno.json/deno.jsonc config verbatim; otherwise (no config file, or the
effective config declares no start task) the first match of the
index-file glob yields "deno run --allow-all <relative path>"; with no
index match either, there is no start command. -/
theorem c5_deno_start_cmd (app : App) :
    (∀ (dj : DenoJson) (s : String),
       (app.includes_file "deno.json" || app.includes_file "deno.jsonc") = true →
       DenoProvider.read_deno_config app = .ok dj →
       DenoProvider.start_task dj = some s →
       DenoProvider.get_start_cmd app = .ok (some s)) ∧
    (∀ (dj : DenoJson) (m r : String),
       (app.includes_file "deno.json" || app.includes_file "deno.jsonc") = true →
       DenoProvider.read_deno_config app = .ok dj →
       DenoProvider.start_task dj = none →
       app.index_matches.head? = some m →
       app.strip_source_path m = .ok r →
       DenoProvider.get_start_cmd app = .ok (some ("deno run --allow-all " ++ r))) ∧
    (∀ (m r : String),
       (app.includes_file "deno.json" || app.includes_file "deno.jsonc") = false →
       app.index_matches.head? = some m →
       app.strip_source_path m = .ok r →
       DenoProvider.get_start_cmd app = .ok (some ("deno run --allow-all " ++ r))) ∧
    ((app.includes_file "deno.json" || app.includes_file "deno.jsonc") = false →
       app.index_matches.head? = none →
       DenoProvider.get_start_cmd app = .ok none) ∧
    (∀ (dj : DenoJson),
       (app.includes_file "deno.json" || app.includes_file "deno.jsonc") = true →
       DenoProvider.read_deno_config app = .ok dj →
       DenoProvider.start_task dj = none →
       app.index_matches.head? = none →
       DenoProvider.get_start_cmd app = .ok none) := by
  refine ⟨?_, ?_, ?_, ?_, ?_⟩
  · intro dj s hfi hcfg hst
    simp only [DenoProvider.get_start_cmd, hfi, if_true, hcfg, hst]
  · intro dj m r hfi hcfg hst hm hr
    simp only [DenoProvider.get_start_cmd, hfi, if_true, hcfg, hst,
      DenoProvider.get_start_file, hm, hr]
  · intro m r hfi hm hr
    simp only [DenoProvider.get_start_cmd, hfi, Bool.false_eq_true, if_false,
      DenoProvider.get_start_file, hm, hr]
  · intro hfi hm
    simp only [DenoProvider.get_start_cmd, hfi, Bool.false_eq_true, if_false,
      DenoProvider.get_start_file, hm]
  · intro dj hfi hcfg hst hm
    simp only [DenoProvider.get_start_cmd, hfi, if_true, hcfg, hst,
      DenoProvider.get_start_file, hm]

def c5App : App := { files := [], index_matches := ["index.ts"] }

/-- C5 witness: with no config file and index.ts as the first glob match,
the start command is the default deno invocation. -/
theorem c5_witness :
    DenoProvider.get_start_cmd c5App = .ok (some "deno run --allow-all index.ts") :=
  (c5_deno_start_cmd c5App).2.2.1 "index.ts" "index.ts" rfl rfl rfl

/-! ## C6 -/

def c6App : App :=
  { files := ["deno.json", "deno.jsonc"],
    deno_config := fun name =>
      if name = "deno.json" then .error "failed to parse deno.json"
      else if name = "deno.jsonc" then
        .ok { tasks := some { start := some "deno task start" } }
      else .error "missing" }

/-- C6 counterexample: deno.json is present and malformed (its read is a
parse error), yet `get_start_cmd` does not return that parse error — it
silently substitutes the parseable deno.jsonc and succeeds. -/
theorem c6_counterexample :
    c6App.includes_file "deno.json" = true ∧
    c6App.deno_config "deno.json" = .error "failed to parse deno.json" ∧
    DenoProvider.get_start_cmd c6App = .ok (some "deno task start") :=
  ⟨rfl, rfl, rfl⟩

/-- C6 amended: single-manifest reads propagate their error verbatim
(pixi get_build_plan, npm suggested commands); for Deno, when a config
file exists the error surfaces only if both the deno.json and the
deno.jsonc reads fail, and the propagated error is the deno.jsonc
attempt's. -/
theorem c6_amended_manifest_errors :
    (∀ (app : App) (env : Environment) (e : String), app.pixi_toml = .error e →
       PixiProvider.get_build_plan app env = .error e) ∧
    (∀ (app : App) (env : Environment) (e : String), app.package_json = .error e →
       NpmProvider.suggested_build_cmd app env = .error e ∧
       NpmProvider.suggested_start_command app env = .error e) ∧
    (∀ (app : App) (e1 e2 : String),
       (app.includes_file "deno.json" || app.includes_file "deno.jsonc") = true →
       app.deno_config "deno.json" = .error e1 →
       app.deno_config "deno.jsonc" = .error e2 →
       DenoProvider.get_start_cmd app = .error e2) := by
  refine ⟨?_, ?_, ?_⟩
  · intro app env e h
    simp only [PixiProvider.get_build_plan, h]
  · intro app env e h
    constructor
    · simp only [NpmProvider.suggested_build_cmd, h]
    · simp only [NpmProvider.suggested_start_command, h]
  · intro app e1 e2 hfi h1 h2
    simp only [DenoProvider.get_start_cmd, hfi, if_true,
      DenoProvider.read_deno_config, h1, h2]

def c6DenoApp : App :=
  { files := ["deno.json"],
    deno_config := fun name =>
      if name = "deno.json" then .error "parse error in deno.json"
      else .error "deno.jsonc does not exist" }

/-- C6 amended witness: with a malformed deno.json and no deno.jsonc, the
error that propagates is the deno.jsonc attempt's. -/
theorem c6_amended_witness :
    DenoProvider.get_start_cmd c6DenoApp = .error "deno.jsonc does not exist" :=
  c6_amended_manifest_errors.2.2 c6DenoApp "parse error in deno.json"
    "deno.jsonc does not exist" rfl rfl rfl

/-! ## C7 -/

/-- C7: in any plan `get_build_plan` returns, the setup phase's archive
override equals `NIXPACKS_ARCHIVE_LATEST_DENO` exactly when USE_DENO_2 is
truthy, and is absent when the flag is absent or not truthy. -/
theorem c7_deno_archive_pin
    (app : App) (env : Environment) (plan : BuildPlan)
    (h : DenoProvider.get_build_plan app env = .ok (some plan)) :
    (env.is_config_variable_truthy "USE_DENO_2" = true →
       (plan.phases.lookup "setup").map Phase.nixpkgs_archive =
         some (some NIXPACKS_ARCHIVE_LATEST_DENO)) ∧
    (env.is_config_variable_truthy "USE_DENO_2" = false →
       (plan.phases.lookup "setup").map Phase.nixpkgs_archive = some none) := by
  simp only [DenoProvider.get_build_plan] at h
  cases hbc : DenoProvider.get_build_cmd app with
  | error e =>
    rw [hbc] at h
    simp at h
  | ok obuild =>
    rw [hbc] at h
    cases hsc : DenoProvider.get_start_cmd app with
    | error e =>
      rw [hsc] at h
      simp at h
    | ok ostart =>
      rw [hsc] at h
      simp only [Except.ok.injEq, Option.some.injEq] at h
      subst h
      cases obuild with
      | none =>
        cases ostart with
        | none =>
          constructor
          · intro ht
            rw [if_pos ht]
            rfl
          · intro ht
            rw [if_neg (by rw [ht]; exact Bool.false_ne_true)]
            rfl
        | some sc =>
          constructor
          · intro ht
            rw [if_pos ht]
            rfl
          · intro ht
            rw [if_neg (by rw [ht]; exact Bool.false_ne_true)]
            rfl
      | some bc =>
        cases ostart with
        | none =>
          constructor
          · intro ht
            rw [if_pos ht]
            rfl
          · intro ht
            rw [if_neg (by rw [ht]; exact Bool.false_ne_true)]
            rfl
        | some sc =>
          constructor
          · intro ht
            rw [if_pos ht]
            rfl
          · intro ht
            rw [if_neg (by rw [ht]; exact Bool.false_ne_true)]
            rfl

def c7App : App := { files := [] }

def c7Env : Environment := ⟨[("NIXPACKS_USE_DENO_2", "1")]⟩

def c7Plan : BuildPlan :=
  BuildPlan.default.add_phase
    ((Phase.setup (some [Pkg.new "deno"])).pin (some NIXPACKS_ARCHIVE_LATEST_DENO))

/-- C7 witness: with NIXPACKS_USE_DENO_2=1 the setup phase carries the
latest-Deno archive pin. -/
theorem c7_witness :
    (c7Plan.phases.lookup "setup").map Phase.nixpkgs_archive =
      some (some NIXPACKS_ARCHIVE_LATEST_DENO) :=
  (c7_deno_archive_pin c7App c7Env c7Plan rfl).1 rfl

/-! ## C8 -/

/-- C8: a tree holding only a package.json (and no deno.land import match)
is detected by the npm provider and not by the deno provider; a tree whose
content scan matches the deno.land import regex is detected by the deno
provider even without a deno.json or deno.jsonc. -/
theorem c8_detection_mutual_exclusion :
    (∀ (app : App) (env env2 : Environment), app.files = ["package.json"] →
       app.find_match_deno_land = .ok false →
       NpmProvider.detect app env = .ok true ∧
       DenoProvider.detect app env2 = .ok false) ∧
    (∀ (app : App) (env : Environment),
       app.includes_file "deno.json" = false →
       app.includes_file "deno.jsonc" = false →
       app.find_match_deno_land = .ok true →
       DenoProvider.detect app env = .ok true) := by
  constructor
  · intro app env env2 hf hfm
    constructor
    · unfold NpmProvider.detect App.includes_file
      rw [hf]
      rfl
    · unfold DenoProvider.detect App.includes_file
      rw [hf]
      rw [if_neg (by decide)]
      exact hfm
  · intro app env h1 h2 hfm
    unfold DenoProvider.detect
    rw [h1, h2]
    rw [if_neg (by decide)]
    exact hfm

def c8NpmApp : App := { files := ["package.json"] }

def c8DenoApp : App := { files := ["main.ts"], find_match_deno_land := .ok true }

/-- C8 witness: the two detection scenarios at concrete trees. -/
theorem c8_witness :
    (NpmProvider.detect c8NpmApp ⟨[]⟩ = .ok true ∧
     DenoProvider.detect c8NpmApp ⟨[]⟩ = .ok false) ∧
    DenoProvider.detect c8DenoApp ⟨[]⟩ = .ok true :=
  ⟨c8_detection_mutual_exclusion.1 c8NpmApp ⟨[]⟩ ⟨[]⟩ rfl rfl,
   c8_detection_mutual_exclusion.2 c8DenoApp ⟨[]⟩ rfl rfl rfl⟩

/-! ## C10 -/

/-- C10: detection is a pure function of the read-only accessor answers —
two detect calls observing the same file list and the same content-scan
answer return the same result for each provider, whatever the
configuration accessor holds (detect never reads it) and whatever the
other accessor answers are. -/
theorem c10_detect_deterministic
    (a1 a2 : App) (env1 env2 : Environment)
    (hfiles : a1.files = a2.files)
    (hfm : a1.find_match_deno_land = a2.find_match_deno_land) :
    NpmProvider.detect a1 env1 = NpmProvider.detect a2 env2 ∧
    DenoProvider.detect a1 env1 = DenoProvider.detect a2 env2 ∧
    PixiProvider.detect a1 env1 = PixiProvider.detect a2 env2 := by
  refine ⟨?_, ?_, ?_⟩ <;>
    simp only [NpmProvider.detect, DenoProvider.detect, PixiProvider.detect,
      App.includes_file, App.has_match, hfiles, hfm]

def c10AppA : App :=
  { files := ["package.json"],
    package_json := .ok { name := "x", scripts := none, engines := none, main := none } }

def c10AppB : App := { files := ["package.json"] }

/-- C10 witness: two accessor states answering the file and scan queries
alike (differing elsewhere, and under different configurations) give the
same detection results. -/
theorem c10_witness :
    NpmProvider.detect c10AppA ⟨[]⟩ =
      NpmProvider.detect c10AppB ⟨[("NIXPACKS_USE_DENO_2", "1")]⟩ ∧
    DenoProvider.detect c10AppA ⟨[]⟩ =
      DenoProvider.detect c10AppB ⟨[("NIXPACKS_USE_DENO_2", "1")]⟩ ∧
    PixiProvider.detect c10AppA ⟨[]⟩ =
      PixiProvider.detect c10AppB ⟨[("NIXPACKS_USE_DENO_2", "1")]⟩ :=
  c10_detect_deterministic c10AppA c10AppB ⟨[]⟩ ⟨[("NIXPACKS_USE_DENO_2", "1")]⟩ rfl rfl
